import Mathlib

/-!
Shallow embedding of ranfysvalle02/mdb-rankfusion (src/demo.py), a single
demo script that seeds a MongoDB collection with movie documents and
embeddings, ensures a text and a vector search index exist (with a bounded
readiness poll), runs one hybrid search via the top-level rankFusion
aggregation stage, renders the results, and tears down interactively.

External collaborators (MongoDB, Azure OpenAI, wall clock, stdin) are
modelled as explicit parameters: the database is an association list of
collections, the embedding client is a function from text to a vector of
rationals, the wall clock advances by the literal sleep interval of the
code, and poll observations are a function from elapsed time to what
list_search_indexes returns at that moment.
-/

namespace MdbRankFusion

/-- JSON-like values, the shape of the Python dicts the script builds
(index definitions, aggregation pipeline stages, documents). Numbers are
rationals so the literal weights 0.7 and 0.3 are exact. -/
inductive JVal : Type where
  | str : String → JVal
  | num : Rat → JVal
  | bool : Bool → JVal
  | arr : List JVal → JVal
  | obj : List (String × JVal) → JVal

/-- Key lookup in a JSON object, the embedding of the Python d[k] / d.get(k)
access on a dict (first matching key wins, as in a dict there is one). -/
def JVal.lookup (v : JVal) (key : String) : Option JVal :=
  match v with
  | .obj fields => List.lookup key fields
  | _ => none

/-- The keys of a JSON object, in insertion order (Python dicts preserve
insertion order). -/
def JVal.keys : JVal → List String
  | .obj fields => fields.map Prod.fst
  | _ => []

/-! ## wait_for_index (src/demo.py lines 73-86)

The loop polls coll.list_search_indexes(name=index_name) and sleeps 5
seconds between polls; it raises TimeoutError once the elapsed wall-clock
time reaches the timeout (default 300). We model the wall clock discretely:
the n-th poll happens at elapsed time 5*n (the list call itself is
instantaneous), and the status source is a function from elapsed time to
the observation made at that time. -/

/-- One document returned by list_search_indexes: the two fields the code
reads via .get (absent field gives none, like dict.get giving None). -/
structure IndexStatusDoc where
  status : Option String
  queryable : Option Bool
deriving Repr, DecidableEq

/-- What one poll of list_search_indexes yields: either an OperationFailure
(the except branch, line 84) or a listing of index documents. -/
inductive PollResult : Type where
  | opFailure : PollResult
  | listing : List IndexStatusDoc → PollResult
deriving Repr, DecidableEq

/-- The success condition of line 80: the listing is non-empty and its
first document has status READY or queryable True. -/
def index_is_ready : List IndexStatusDoc → Bool
  | [] => false
  | d :: _ => d.status == some "READY" || d.queryable == some true

/-- Whether an observation satisfies the success condition: an
OperationFailure never does, a listing does iff index_is_ready. -/
def ready_observation : PollResult → Bool
  | .opFailure => false
  | .listing l => index_is_ready l

@[simp] theorem ready_observation_opFailure :
    ready_observation .opFailure = false := rfl

@[simp] theorem ready_observation_listing (l : List IndexStatusDoc) :
    ready_observation (.listing l) = index_is_ready l := rfl

/-- Whether the poll made at elapsed time t observes the success
condition (a listing that passes index_is_ready). -/
def poll_success (src : Nat → PollResult) (t : Nat) : Bool :=
  ready_observation (src t)

/-- The while loop of wait_for_index, from a given elapsed time. Returns
.ok t when the poll at elapsed time t first observes the success condition
(the function then returns True), and .error t when the loop guard
time.time() - start_time < timeout fails at elapsed time t (the function
then raises TimeoutError). An OperationFailure is swallowed and the loop
sleeps 5 and retries, exactly like a not-ready listing. -/
def wait_for_index_loop (src : Nat → PollResult) (timeout elapsed : Nat) :
    Except Nat Nat :=
  if _h : elapsed < timeout then
    match src elapsed with
    | .opFailure => wait_for_index_loop src timeout (elapsed + 5)
    | .listing l =>
        if index_is_ready l then .ok elapsed
        else wait_for_index_loop src timeout (elapsed + 5)
  else
    .error elapsed
termination_by timeout - elapsed
decreasing_by
  all_goals omega

/-- wait_for_index: run the poll loop from elapsed time 0 with the default
timeout of 300 seconds. -/
def wait_for_index (src : Nat → PollResult) (timeout : Nat := 300) :
    Except Nat Nat :=
  wait_for_index_loop src timeout 0

/-- Unfolding the loop one step when the guard holds and the poll fails
transiently: the error is swallowed and the loop retries 5 later. -/
theorem wait_for_index_loop_opFailure (src : Nat → PollResult)
    (timeout elapsed : Nat) (hlt : elapsed < timeout)
    (hop : src elapsed = .opFailure) :
    wait_for_index_loop src timeout elapsed =
      wait_for_index_loop src timeout (elapsed + 5) := by
  rw [wait_for_index_loop]
  simp [hlt, hop]

/-- Unfolding the loop one step when the guard holds and the poll observes
a listing. -/
theorem wait_for_index_loop_listing (src : Nat → PollResult)
    (timeout elapsed : Nat) (l : List IndexStatusDoc) (hlt : elapsed < timeout)
    (hob : src elapsed = .listing l) :
    wait_for_index_loop src timeout elapsed =
      if index_is_ready l then .ok elapsed
      else wait_for_index_loop src timeout (elapsed + 5) := by
  rw [wait_for_index_loop]
  simp [hlt, hob]

/-- Unfolding the loop when the guard fails: TimeoutError at this elapsed
time. -/
theorem wait_for_index_loop_timeout (src : Nat → PollResult)
    (timeout elapsed : Nat) (hge : timeout ≤ elapsed) :
    wait_for_index_loop src timeout elapsed = .error elapsed := by
  rw [wait_for_index_loop]
  simp [Nat.not_lt.mpr hge]

/-- A timeout error is only raised at an elapsed time at or past the
budget: the loop never raises early. -/
theorem wait_for_index_loop_error_ge (src : Nat → PollResult) :
    ∀ fuel timeout elapsed t, timeout ≤ elapsed + fuel →
      wait_for_index_loop src timeout elapsed = .error t → timeout ≤ t := by
  intro fuel
  induction fuel with
  | zero =>
      intro timeout elapsed t hf hrun
      rw [wait_for_index_loop_timeout src timeout elapsed (by omega)] at hrun
      cases hrun
      omega
  | succ n ih =>
      intro timeout elapsed t hf hrun
      by_cases hlt : elapsed < timeout
      · cases hsrc : src elapsed with
        | opFailure =>
            rw [wait_for_index_loop_opFailure src timeout elapsed hlt hsrc] at hrun
            exact ih timeout (elapsed + 5) t (by omega) hrun
        | listing l =>
            rw [wait_for_index_loop_listing src timeout elapsed l hlt hsrc] at hrun
            by_cases hr : index_is_ready l
            · simp [hr] at hrun
            · simp [hr] at hrun
              exact ih timeout (elapsed + 5) t (by omega) hrun
      · rw [wait_for_index_loop_timeout src timeout elapsed (by omega)] at hrun
        cases hrun
        omega

/-- If no poll ever observes the success condition, the loop ends in a
timeout error; starting within 5 of the budget boundary being reachable,
the error's elapsed time is at the budget or within 5 past it. -/
theorem wait_for_index_loop_never_ready (src : Nat → PollResult)
    (hnever : ∀ t, poll_success src t = false) :
    ∀ fuel timeout elapsed, timeout ≤ elapsed + fuel →
      elapsed < timeout + 5 →
      ∃ t, wait_for_index_loop src timeout elapsed = .error t ∧
        timeout ≤ t ∧ t < timeout + 5 := by
  intro fuel
  induction fuel with
  | zero =>
      intro timeout elapsed hf hinv
      exact ⟨elapsed, wait_for_index_loop_timeout src timeout elapsed (by omega),
        by omega, hinv⟩
  | succ n ih =>
      intro timeout elapsed hf hinv
      by_cases hlt : elapsed < timeout
      · cases hsrc : src elapsed with
        | opFailure =>
            rw [wait_for_index_loop_opFailure src timeout elapsed hlt hsrc]
            exact ih timeout (elapsed + 5) (by omega) (by omega)
        | listing l =>
            have hps := hnever elapsed
            rw [poll_success, hsrc, ready_observation_listing] at hps
            rw [wait_for_index_loop_listing src timeout elapsed l hlt hsrc, hps]
            simp only [Bool.false_eq_true, if_false]
            exact ih timeout (elapsed + 5) (by omega) (by omega)
      · exact ⟨elapsed, wait_for_index_loop_timeout src timeout elapsed (by omega),
          by omega, hinv⟩

/-- If some poll within the budget observes the success condition, the loop
returns successfully (.ok), at a polled time where the condition holds. -/
theorem wait_for_index_loop_success (src : Nat → PollResult) :
    ∀ fuel timeout elapsed k, timeout ≤ elapsed + fuel →
      elapsed + 5 * k < timeout →
      poll_success src (elapsed + 5 * k) = true →
      ∃ t, wait_for_index_loop src timeout elapsed = .ok t ∧
        poll_success src t = true ∧ t < timeout := by
  intro fuel
  induction fuel with
  | zero =>
      intro timeout elapsed k hf hk _
      omega
  | succ n ih =>
      intro timeout elapsed k hf hk hps
      have hlt : elapsed < timeout := by omega
      cases hsrc : src elapsed with
      | opFailure =>
          have hk0 : k ≠ 0 := by
            intro h0
            subst h0
            rw [Nat.mul_zero, Nat.add_zero, poll_success, hsrc,
              ready_observation_opFailure] at hps
            cases hps
          rw [wait_for_index_loop_opFailure src timeout elapsed hlt hsrc]
          obtain ⟨k', hk'⟩ : ∃ k', k = k' + 1 := ⟨k - 1, by omega⟩
          subst hk'
          have harith : elapsed + 5 + 5 * k' = elapsed + 5 * (k' + 1) := by ring
          exact ih timeout (elapsed + 5) k' (by omega) (by omega)
            (by rw [harith]; exact hps)
      | listing l =>
          by_cases hr : index_is_ready l
          · refine ⟨elapsed, ?_, ?_, hlt⟩
            · rw [wait_for_index_loop_listing src timeout elapsed l hlt hsrc, hr]
              simp only [if_true]
            · rw [poll_success, hsrc, ready_observation_listing]
              exact hr
          · have hk0 : k ≠ 0 := by
              intro h0
              subst h0
              rw [Nat.mul_zero, Nat.add_zero, poll_success, hsrc,
                ready_observation_listing] at hps
              exact hr hps
            rw [wait_for_index_loop_listing src timeout elapsed l hlt hsrc,
              Bool.not_eq_true ] at *
            rw [hr]
            simp only [Bool.false_eq_true, if_false]
            obtain ⟨k', hk'⟩ : ∃ k', k = k' + 1 := ⟨k - 1, by omega⟩
            subst hk'
            have harith : elapsed + 5 + 5 * k' = elapsed + 5 * (k' + 1) := by ring
            exact ih timeout (elapsed + 5) k' (by omega) (by omega)
              (by rw [harith]; exact hps)

/-- A successful return of the loop happens at a polled elapsed time (a
multiple of 5 past the start) at which the success condition holds, strictly
inside the budget, and at no earlier polled time did it hold. -/
theorem wait_for_index_loop_ok_first (src : Nat → PollResult) :
    ∀ fuel timeout elapsed t, timeout ≤ elapsed + fuel →
      wait_for_index_loop src timeout elapsed = .ok t →
      poll_success src t = true ∧ elapsed ≤ t ∧ t < timeout ∧
        (∃ k, t = elapsed + 5 * k) ∧
        (∀ k, elapsed + 5 * k < t → poll_success src (elapsed + 5 * k) = false) := by
  intro fuel
  induction fuel with
  | zero =>
      intro timeout elapsed t hf hrun
      rw [wait_for_index_loop_timeout src timeout elapsed (by omega)] at hrun
      cases hrun
  | succ n ih =>
      intro timeout elapsed t hf hrun
      by_cases hlt : elapsed < timeout
      · cases hsrc : src elapsed with
        | opFailure =>
            rw [wait_for_index_loop_opFailure src timeout elapsed hlt hsrc] at hrun
            obtain ⟨hps, hle, hlt', ⟨k, hk⟩, hmin⟩ :=
              ih timeout (elapsed + 5) t (by omega) hrun
            refine ⟨hps, by omega, hlt', ⟨k + 1, by omega⟩, ?_⟩
            intro j hj
            match j with
            | 0 =>
                rw [Nat.mul_zero, Nat.add_zero, poll_success, hsrc,
                  ready_observation_opFailure]
            | j' + 1 =>
                have harith : elapsed + 5 * (j' + 1) = elapsed + 5 + 5 * j' := by ring
                rw [harith]
                exact hmin j' (by omega)
        | listing l =>
            rw [wait_for_index_loop_listing src timeout elapsed l hlt hsrc] at hrun
            by_cases hr : index_is_ready l
            · rw [hr] at hrun
              simp only [if_true, Except.ok.injEq] at hrun
              subst hrun
              refine ⟨by rw [poll_success, hsrc, ready_observation_listing]; exact hr,
                Nat.le_refl _, hlt, ⟨0, by omega⟩, ?_⟩
              intro j hj
              omega
            · rw [Bool.not_eq_true] at hr
              rw [hr] at hrun
              simp only [Bool.false_eq_true, if_false] at hrun
              obtain ⟨hps, hle, hlt', ⟨k, hk⟩, hmin⟩ :=
                ih timeout (elapsed + 5) t (by omega) hrun
              refine ⟨hps, by omega, hlt', ⟨k + 1, by omega⟩, ?_⟩
              intro j hj
              match j with
              | 0 =>
                  rw [Nat.mul_zero, Nat.add_zero, poll_success, hsrc,
                    ready_observation_listing]
                  exact hr
              | j' + 1 =>
                  have harith : elapsed + 5 * (j' + 1) = elapsed + 5 + 5 * j' := by ring
                  rw [harith]
                  exact hmin j' (by omega)
      · rw [wait_for_index_loop_timeout src timeout elapsed (by omega)] at hrun
        cases hrun

/-- A simulated status source that never reports ready: every poll lists
one index document whose status is PENDING and whose queryable flag is
false. -/
def never_ready_source : Nat → PollResult :=
  fun _ => .listing [⟨some "PENDING", some false⟩]

/-- A simulated status source that is transiently failing at time 0, not
ready at time 5, and queryable from time 10 on. -/
def flaky_then_ready_source : Nat → PollResult :=
  fun t =>
    if t = 0 then .opFailure
    else if t = 5 then .listing [⟨some "PENDING", none⟩]
    else .listing [⟨none, some true⟩]

/-- C1: wait_for_index fails with the TimeoutError exactly when the budget
elapses without the success condition ever holding, and not before: (i) a
TimeoutError is only ever raised at an elapsed time at or past the timeout
budget; (ii) with a status source that never reports ready, the poll raises
TimeoutError at an elapsed time at or past the budget (and within one
5-unit sleep of it); (iii) if the success condition holds at some poll
inside the budget, the operation returns successfully instead. -/
theorem wait_for_index_timeout_iff_budget_elapsed :
    (∀ (src : Nat → PollResult) (timeout t : Nat),
      wait_for_index src timeout = .error t → timeout ≤ t) ∧
    (∀ (src : Nat → PollResult) (timeout : Nat),
      (∀ t, poll_success src t = false) →
      ∃ t, wait_for_index src timeout = .error t ∧
        timeout ≤ t ∧ t < timeout + 5) ∧
    (∀ (src : Nat → PollResult) (timeout k : Nat),
      5 * k < timeout → poll_success src (5 * k) = true →
      ∃ t, wait_for_index src timeout = .ok t ∧
        poll_success src t = true ∧ t < timeout) := by
  refine ⟨?_, ?_, ?_⟩
  · intro src timeout t hrun
    exact wait_for_index_loop_error_ge src timeout timeout 0 t (by omega) hrun
  · intro src timeout hnever
    exact wait_for_index_loop_never_ready src hnever timeout timeout 0 (by omega)
      (by omega)
  · intro src timeout k hk hps
    refine wait_for_index_loop_success src timeout timeout 0 k (by omega)
      (by omega) ?_
    rw [Nat.zero_add]
    exact hps

/-- C1 witness: with a never-ready source and budget 300, a TimeoutError is
raised at or past 300; with a source queryable from time 10, budget 300, the
poll returns successfully. -/
theorem wait_for_index_timeout_iff_budget_elapsed_witness :
    (∃ t, wait_for_index never_ready_source 300 = .error t ∧
      300 ≤ t ∧ t < 305) ∧
    (∃ t, wait_for_index flaky_then_ready_source 300 = .ok t ∧
      poll_success flaky_then_ready_source t = true ∧ t < 300) := by
  obtain ⟨_, h2, h3⟩ := wait_for_index_timeout_iff_budget_elapsed
  refine ⟨h2 never_ready_source 300 ?_, h3 flaky_then_ready_source 300 2 (by omega) ?_⟩
  · intro t
    rfl
  · rfl

/-- C2: the poll loop returns success exactly at the first polled elapsed
time (polls are 5 time-units apart, starting at 0) at which the success
condition holds; the success condition on a non-empty listing is status
READY or queryable true; and a transient OperationFailure inside the budget
is swallowed, the loop retrying one 5-unit interval later instead of
aborting. -/
theorem wait_for_index_polls_and_success_condition :
    (∀ (src : Nat → PollResult) (timeout t : Nat),
      wait_for_index src timeout = .ok t →
      poll_success src t = true ∧ t < timeout ∧ (∃ k, t = 5 * k) ∧
        (∀ k, 5 * k < t → poll_success src (5 * k) = false)) ∧
    (∀ (d : IndexStatusDoc) (l : List IndexStatusDoc),
      index_is_ready (d :: l) = true ↔
        (d.status = some "READY" ∨ d.queryable = some true)) ∧
    (∀ (src : Nat → PollResult) (timeout elapsed : Nat),
      elapsed < timeout → src elapsed = .opFailure →
      wait_for_index_loop src timeout elapsed =
        wait_for_index_loop src timeout (elapsed + 5)) := by
  refine ⟨?_, ?_, ?_⟩
  · intro src timeout t hrun
    obtain ⟨hps, _, hlt, ⟨k, hk⟩, hmin⟩ :=
      wait_for_index_loop_ok_first src timeout timeout 0 t (by omega) hrun
    refine ⟨hps, hlt, ⟨k, by omega⟩, ?_⟩
    intro j hj
    have := hmin j (by omega)
    rw [Nat.zero_add] at this
    exact this
  · intro d l
    rw [index_is_ready]
    simp [beq_iff_eq]
  · intro src timeout elapsed hlt hop
    exact wait_for_index_loop_opFailure src timeout elapsed hlt hop

/-- C2 witness: with the source that fails transiently at 0, is pending at
5 and queryable from 10, the poll returns at elapsed time 10, the first
successful poll. -/
theorem wait_for_index_polls_and_success_condition_witness :
    poll_success flaky_then_ready_source 10 = true ∧ (10 : Nat) < 300 ∧
      (∃ k, (10 : Nat) = 5 * k) ∧
      (∀ k, 5 * k < 10 → poll_success flaky_then_ready_source (5 * k) = false) := by
  have hrun : wait_for_index flaky_then_ready_source 300 = .ok 10 := by
    rw [wait_for_index]
    rw [wait_for_index_loop_opFailure flaky_then_ready_source 300 0 (by omega) rfl]
    rw [wait_for_index_loop_listing flaky_then_ready_source 300 5
      [⟨some "PENDING", none⟩] (by omega) rfl]
    rw [show index_is_ready [⟨some "PENDING", none⟩] = false from rfl]
    simp only [Bool.false_eq_true, if_false]
    rw [wait_for_index_loop_listing flaky_then_ready_source 300 10
      [⟨none, some true⟩] (by omega) rfl]
    rw [show index_is_ready [⟨none, some true⟩] = true from rfl]
    simp only [if_true]
  exact wait_for_index_polls_and_success_condition.1 flaky_then_ready_source 300 10 hrun

/-! ## create_indexes_if_needed (src/demo.py lines 88-113)

The collection's search indexes are modelled by the list of index models
the server holds (list_search_indexes returns them in order;
create_search_index appends the submitted model). Whether a submitted
index build reaches ready within wait_for_index's budget is an external
fact, modelled by a predicate on index names: when it is false for a
created index, wait_for_index raises TimeoutError and the rest of the
function is not executed. -/

/-- The text index model of line 94: dynamic mapping over all fields. -/
def text_index_model (text_idx : String) : JVal :=
  .obj [("name", .str text_idx),
        ("definition", .obj [("mappings", .obj [("dynamic", .bool true)])])]

/-- The vector index model of lines 102-109: one knnVector field named
plot_embedding with the given dimensionality and cosine similarity. -/
def vector_index_model (vec_idx : String) (vector_dims : Nat) : JVal :=
  .obj [("name", .str vec_idx),
        ("definition", .obj [("mappings", .obj [("fields", .obj
          [("plot_embedding", .obj
            [("type", .str "knnVector"),
             ("dimensions", .num vector_dims),
             ("similarity", .str "cosine")])])])])]

/-- The name field of an index model, as read by idx of line 90 (the
models the script ever submits always carry a string name). -/
def jname (idx : JVal) : String :=
  match idx.lookup "name" with
  | some (.str s) => s
  | _ => ""

/-- State threaded through create_indexes_if_needed: the server's index
list, the creation requests issued, the names polled by wait_for_index,
and the index name whose poll raised TimeoutError, if any (once set, the
rest of the function body is skipped, as an exception propagates). -/
structure EnsureState where
  indexes : List JVal
  creates : List JVal
  polls : List String
  timedOut : Option String

/-- One if-block of create_indexes_if_needed (lines 92-98 and 100-113):
if the name is among the existing names listed at entry, do nothing (skip
creation and polling); otherwise submit the model, poll it, and record a
timeout if the build never becomes ready in time. -/
def ensure_index (pollOk : String → Bool) (existing : List String)
    (idx_name : String) (model : JVal) (s : EnsureState) : EnsureState :=
  if s.timedOut.isSome then s
  else if idx_name ∈ existing then s
  else
    let s1 : EnsureState :=
      { indexes := s.indexes ++ [model],
        creates := s.creates ++ [model],
        polls := s.polls ++ [idx_name],
        timedOut := none }
    if pollOk idx_name then s1 else { s1 with timedOut := some idx_name }

/-- create_indexes_if_needed: list the existing index names once (line 90),
then ensure the text index and then the vector index, both checked against
that entry-time snapshot of names. -/
def create_indexes_if_needed (pollOk : String → Bool) (indexes : List JVal)
    (text_idx vec_idx : String) (vector_dims : Nat) : EnsureState :=
  ensure_index pollOk (indexes.map jname) vec_idx
    (vector_index_model vec_idx vector_dims)
    (ensure_index pollOk (indexes.map jname) text_idx (text_index_model text_idx)
      ⟨indexes, [], [], none⟩)

/-- The submitted text model is listed under its own name. -/
theorem jname_text_index_model (t : String) : jname (text_index_model t) = t := by
  rfl

/-- The submitted vector model is listed under its own name. -/
theorem jname_vector_index_model (v : String) (d : Nat) :
    jname (vector_index_model v d) = v := by
  rfl

/-- ensure_index on a present name changes nothing. -/
theorem ensure_index_mem (pollOk : String → Bool) (existing : List String)
    (idx_name : String) (model : JVal) (s : EnsureState)
    (hmem : idx_name ∈ existing) :
    ensure_index pollOk existing idx_name model s = s := by
  rw [ensure_index]
  by_cases hto : s.timedOut.isSome
  · rw [if_pos hto]
  · rw [if_neg hto, if_pos hmem]

/-- C3: the index-ensure operation is idempotent. (i) If the text index
name is already listed, no creation request carries its name and it is
never polled; (ii) likewise for the vector index name; (iii) if after a
first call both names are present (as after any completed call), a second
call issues zero creation requests, performs zero polls, and leaves the
index list unchanged — in particular the same two named indexes remain
present. -/
theorem create_indexes_if_needed_idempotent
    (pollOk : String → Bool) (indexes : List JVal)
    (text_idx vec_idx : String) (vector_dims : Nat) :
    (text_idx ∈ indexes.map jname →
      (∀ m ∈ (create_indexes_if_needed pollOk indexes text_idx vec_idx
        vector_dims).creates, jname m ≠ text_idx) ∧
      text_idx ∉ (create_indexes_if_needed pollOk indexes text_idx vec_idx
        vector_dims).polls) ∧
    (vec_idx ∈ indexes.map jname →
      (∀ m ∈ (create_indexes_if_needed pollOk indexes text_idx vec_idx
        vector_dims).creates, jname m ≠ vec_idx) ∧
      vec_idx ∉ (create_indexes_if_needed pollOk indexes text_idx vec_idx
        vector_dims).polls) ∧
    (∀ st : EnsureState,
      st = create_indexes_if_needed pollOk indexes text_idx vec_idx vector_dims →
      text_idx ∈ st.indexes.map jname → vec_idx ∈ st.indexes.map jname →
      (create_indexes_if_needed pollOk st.indexes text_idx vec_idx
        vector_dims).creates = [] ∧
      (create_indexes_if_needed pollOk st.indexes text_idx vec_idx
        vector_dims).polls = [] ∧
      (create_indexes_if_needed pollOk st.indexes text_idx vec_idx
        vector_dims).indexes = st.indexes) := by
  refine ⟨?_, ?_, ?_⟩
  · intro hmem
    rw [create_indexes_if_needed, ensure_index_mem _ _ _ _ _ hmem]
    by_cases hv : vec_idx ∈ indexes.map jname
    · rw [ensure_index_mem _ _ _ _ _ hv]
      exact ⟨fun m hm => absurd hm (List.not_mem_nil m),
        fun h => absurd h (List.not_mem_nil _)⟩
    · have hne : vec_idx ≠ text_idx := fun he => hv (he ▸ hmem)
      have hne' : text_idx ≠ vec_idx := fun he => hne he.symm
      rw [ensure_index]
      by_cases hp : pollOk vec_idx <;>
        simp [hv, hp, jname_vector_index_model, hne, hne']
  · intro hmem
    rw [create_indexes_if_needed]
    by_cases ht : text_idx ∈ indexes.map jname
    · rw [ensure_index_mem _ _ _ _ _ ht, ensure_index_mem _ _ _ _ _ hmem]
      exact ⟨fun m hm => absurd hm (List.not_mem_nil m),
        fun h => absurd h (List.not_mem_nil _)⟩
    · have hne : text_idx ≠ vec_idx := fun he => ht (he ▸ hmem)
      rw [show ensure_index pollOk (indexes.map jname) text_idx
            (text_index_model text_idx) ⟨indexes, [], [], none⟩ =
          (if pollOk text_idx then
            (⟨indexes ++ [text_index_model text_idx], [text_index_model text_idx],
              [text_idx], none⟩ : EnsureState)
          else
            ⟨indexes ++ [text_index_model text_idx], [text_index_model text_idx],
              [text_idx], some text_idx⟩) from by
        rw [ensure_index]
        simp [ht]]
      by_cases hp : pollOk text_idx
      · rw [if_pos hp, ensure_index_mem _ _ _ _ _ hmem]
        refine ⟨?_, ?_⟩
        · intro m hm
          simp only [List.mem_singleton] at hm
          subst hm
          rw [jname_text_index_model]
          exact hne
        · intro h
          simp only [List.mem_singleton] at h
          exact hne h.symm
      · rw [if_neg hp, ensure_index]
        simp only [Option.isSome_some, if_true]
        refine ⟨?_, ?_⟩
        · intro m hm
          simp only [List.mem_singleton] at hm
          subst hm
          rw [jname_text_index_model]
          exact hne
        · intro h
          simp only [List.mem_singleton] at h
          exact hne h.symm
  · intro st _ ht hv
    rw [create_indexes_if_needed, ensure_index_mem _ _ _ _ _ ht,
      ensure_index_mem _ _ _ _ _ hv]
    exact ⟨rfl, rfl, rfl⟩

/-- C3 witness: starting from no indexes with builds that become ready,
the first call creates both indexes; the second call, run on the resulting
index list, issues zero creation requests, performs zero polls, and leaves
the index list unchanged. -/
theorem create_indexes_if_needed_idempotent_witness :
    (create_indexes_if_needed (fun _ => true)
      (create_indexes_if_needed (fun _ => true) [] "movies_text_index"
        "movies_vector_index" 1536).indexes
      "movies_text_index" "movies_vector_index" 1536).creates = [] ∧
    (create_indexes_if_needed (fun _ => true)
      (create_indexes_if_needed (fun _ => true) [] "movies_text_index"
        "movies_vector_index" 1536).indexes
      "movies_text_index" "movies_vector_index" 1536).polls = [] ∧
    (create_indexes_if_needed (fun _ => true)
      (create_indexes_if_needed (fun _ => true) [] "movies_text_index"
        "movies_vector_index" 1536).indexes
      "movies_text_index" "movies_vector_index" 1536).indexes =
      (create_indexes_if_needed (fun _ => true) [] "movies_text_index"
        "movies_vector_index" 1536).indexes := by
  obtain ⟨_, _, h3⟩ := create_indexes_if_needed_idempotent (fun _ => true) []
    "movies_text_index" "movies_vector_index" 1536
  exact h3 (create_indexes_if_needed (fun _ => true) [] "movies_text_index"
      "movies_vector_index" 1536) rfl (by decide) (by decide)

/-! ## setup_database (src/demo.py lines 42-67)

Documents are association lists from field name to value, in insertion
order, like Python dicts; a database maps collection names to their
documents. The embedding client is a function from text to a vector of
rationals (get_embedding, line 69-71, returns
client.embeddings.create(...).data[0].embedding). -/

/-- A document: a Python dict with string keys, in insertion order. -/
abbrev PyDoc := List (String × JVal)

/-- A database: collection name to stored documents. -/
abbrev Database := List (String × List PyDoc)

/-- db.list_collection_names(). -/
def collection_names (db : Database) : List String :=
  db.map Prod.fst

/-- The documents of a collection (a collection that does not exist holds
no documents). -/
def get_collection (db : Database) (n : String) : List PyDoc :=
  (List.lookup n db).getD []

/-- collection.count_documents on an empty filter: the number of stored
documents. -/
def count_documents (db : Database) (n : String) : Nat :=
  (get_collection db n).length

/-- collection.drop(): remove the collection entirely. -/
def drop_collection (db : Database) (n : String) : Database :=
  db.filter (fun p => p.1 ≠ n)

/-- collection.insert_many(docs): append to the existing collection, or
create it with exactly these documents. -/
def insert_many (db : Database) (n : String) (docs : List PyDoc) : Database :=
  if n ∈ collection_names db then
    db.map (fun p => if p.1 = n then (p.1, p.2 ++ docs) else p)
  else
    db ++ [(n, docs)]

/-- The five sample movie dicts of lines 53-59, verbatim. -/
def movies : List PyDoc :=
  [[("title", .str "Star Wars: A New Hope"),
    ("plot", .str "Luke Skywalker joins forces with a Jedi Knight, a cocky pilot, a Wookiee and two droids to save the galaxy from the Empire\x27s world-destroying battle station, while also attempting to rescue Princess Leia from the evil Darth Vader."),
    ("genre", .str "Sci-Fi")],
   [("title", .str "The Godfather"),
    ("plot", .str "The aging patriarch of an organized crime dynasty transfers control of his empire to his reluctant son."),
    ("genre", .str "Crime")],
   [("title", .str "The Dark Knight"),
    ("plot", .str "Batman must face the Joker, a criminal mastermind who wants to watch the world burn."),
    ("genre", .str "Action")],
   [("title", .str "Pulp Fiction"),
    ("plot", .str "The lives of two mob hitmen, a boxer, and a gangster\x27s wife intertwine in tales of violence and redemption."),
    ("genre", .str "Crime")],
   [("title", .str "Forrest Gump"),
    ("plot", .str "A simple man from Alabama experiences several historical events in the 20th century."),
    ("genre", .str "Drama")]]

/-- The plot field of a movie dict, as read by movie of line 63. -/
def plot_of (m : PyDoc) : String :=
  match List.lookup "plot" m with
  | some (.str s) => s
  | _ => ""

/-- Line 63: movie of plot_embedding is set to the embedding of the plot;
on a dict without that key, assignment appends it, preserving insertion
order of the existing keys. -/
def attach_embedding (embed : String → List Rat) (m : PyDoc) : PyDoc :=
  m ++ [("plot_embedding", .arr ((embed (plot_of m)).map JVal.num))]

/-- Effects of one setup_database run: the texts sent to the embedding
client, whether the collection was dropped, and the documents inserted. -/
structure SeedTrace where
  embed_calls : List String
  dropped : Bool
  inserted : List PyDoc

/-- setup_database: if the collection already exists and is non-empty,
return it untouched (lines 46-48); otherwise drop any partial collection,
embed every movie plot, and bulk-insert the five enriched movie dicts
(lines 50-67). -/
def setup_database (db : Database) (coll_name : String)
    (embed : String → List Rat) : Database × SeedTrace :=
  if coll_name ∈ collection_names db ∧ 0 < count_documents db coll_name then
    (db, ⟨[], false, []⟩)
  else
    (insert_many (drop_collection db coll_name) coll_name
        (movies.map (attach_embedding embed)),
     ⟨movies.map plot_of, true, movies.map (attach_embedding embed)⟩)

/-- A dropped collection is no longer listed. -/
theorem not_mem_drop_collection (db : Database) (n : String) :
    n ∉ collection_names (drop_collection db n) := by
  intro hmem
  rw [collection_names, drop_collection] at hmem
  obtain ⟨p, hp, hfst⟩ := List.mem_map.mp hmem
  have := List.of_mem_filter hp
  rw [hfst] at this
  simp at this

/-- Association-list lookup skips a prefix containing no matching key. -/
theorem lookup_append_of_not_mem {β : Type} (l1 l2 : List (String × β))
    (n : String) (h : n ∉ l1.map Prod.fst) :
    List.lookup n (l1 ++ l2) = List.lookup n l2 := by
  induction l1 with
  | nil => rfl
  | cons p l1 ih =>
      simp only [List.map_cons, List.mem_cons] at h
      push_neg at h
      rw [List.cons_append, List.lookup]
      have hne : (n == p.1) = false := beq_eq_false_iff_ne.mpr h.1
      rw [hne]
      exact ih h.2

/-- Inserting into an absent collection appends it. -/
theorem insert_many_of_not_mem (db : Database) (n : String) (docs : List PyDoc)
    (h : n ∉ collection_names db) :
    insert_many db n docs = db ++ [(n, docs)] := by
  rw [insert_many, if_neg h]

/-- After drop-then-insert, the collection holds exactly the inserted
documents. -/
theorem get_collection_after_seed (db : Database) (n : String)
    (docs : List PyDoc) :
    get_collection (insert_many (drop_collection db n) n docs) n = docs := by
  rw [insert_many_of_not_mem _ _ _ (not_mem_drop_collection db n),
    get_collection, lookup_append_of_not_mem _ _ _ (not_mem_drop_collection db n)]
  simp [List.lookup]

/-- After drop-then-insert, the collection is listed. -/
theorem mem_names_after_seed (db : Database) (n : String) (docs : List PyDoc) :
    n ∈ collection_names (insert_many (drop_collection db n) n docs) := by
  rw [insert_many_of_not_mem _ _ _ (not_mem_drop_collection db n),
    collection_names, List.map_append]
  simp

/-- C4: the seeding operation is idempotent. (i) If the target collection
exists and is non-empty, setup_database returns the database unchanged with
no embedding call, no drop and no insert; (ii) when it does seed, the
collection afterwards holds exactly one copy of the five sample records
(each with its embedding attached); (iii) a second consecutive call on the
resulting database is always such a no-op. -/
theorem setup_database_idempotent (db : Database) (coll_name : String)
    (embed : String → List Rat) :
    (coll_name ∈ collection_names db → 0 < count_documents db coll_name →
      setup_database db coll_name embed = (db, ⟨[], false, []⟩)) ∧
    (¬ (coll_name ∈ collection_names db ∧ 0 < count_documents db coll_name) →
      get_collection (setup_database db coll_name embed).1 coll_name =
        movies.map (attach_embedding embed)) ∧
    (setup_database (setup_database db coll_name embed).1 coll_name embed =
      ((setup_database db coll_name embed).1, ⟨[], false, []⟩)) := by
  refine ⟨?_, ?_, ?_⟩
  · intro hmem hpos
    rw [setup_database, if_pos ⟨hmem, hpos⟩]
  · intro hcond
    rw [setup_database, if_neg hcond]
    exact get_collection_after_seed db coll_name _
  · by_cases hcond : coll_name ∈ collection_names db ∧
      0 < count_documents db coll_name
    · have h1 : (setup_database db coll_name embed).1 = db := by
        rw [setup_database, if_pos hcond]
      rw [h1, setup_database, if_pos hcond]
    · have h1 : (setup_database db coll_name embed).1 =
          insert_many (drop_collection db coll_name) coll_name
            (movies.map (attach_embedding embed)) := by
        rw [setup_database, if_neg hcond]
      have hmem := mem_names_after_seed db coll_name
        (movies.map (attach_embedding embed))
      have hpos : 0 < count_documents (insert_many (drop_collection db coll_name)
          coll_name (movies.map (attach_embedding embed))) coll_name := by
        rw [count_documents, get_collection_after_seed, List.length_map]
        rw [show movies.length = 5 from rfl]
        omega
      rw [h1, setup_database, if_pos ⟨hmem, hpos⟩]

/-- C4 witness: seeding an empty database with a fixed embedding client,
then seeding again, is a no-op the second time, and one copy of the five
enriched sample records is present. -/
theorem setup_database_idempotent_witness :
    (get_collection (setup_database [] "movies" (fun _ => [1])).1 "movies" =
      movies.map (attach_embedding (fun _ => [1]))) ∧
    (setup_database (setup_database [] "movies" (fun _ => [1])).1 "movies"
        (fun _ => [1]) =
      ((setup_database [] "movies" (fun _ => [1])).1, ⟨[], false, []⟩)) := by
  obtain ⟨_, h2, h3⟩ := setup_database_idempotent [] "movies" (fun _ => [1])
  exact ⟨h2 (by intro h; exact absurd h.1 (List.not_mem_nil _)), h3⟩

/-! ## The hybrid query (src/demo.py lines 116-191)

The constants of lines 121-125, the aggregation pipeline of lines 137-185
and the result rendering loop of lines 190-191. The pipeline is built here
as a function of the query text, the query embedding, the two combination
weights and the final limit; main instantiates them with the literals
"space galaxy adventure", the embedding of that text, 0.7, 0.3 and 5. -/

def DB_NAME : String := "hybrid_search_db"

def COLLECTION_NAME : String := "movies"

def TEXT_INDEX_NAME : String := "movies_text_index"

def VECTOR_INDEX_NAME : String := "movies_vector_index"

def EMBEDDING_DIMENSIONS : Nat := 1536

/-- The aggregation pipeline of lines 137-185: a top-level rankFusion
stage with a vectorPipeline (vectorSearch over the vector index on path
plot_embedding, 100 candidates narrowed to 10) and a fullTextPipeline
(search over the text index matching the query text against title and
plot, then a limit of 10), weighted combination and score details; a
projection of title, plot and score details; and a final limit stage. -/
def hybrid_pipeline (query : String) (query_embedding : List Rat)
    (w_vector w_fulltext : Rat) (result_limit : Nat) : List JVal :=
  [.obj [("$rankFusion", .obj
      [("input", .obj
        [("pipelines", .obj
          [("vectorPipeline", .arr
            [.obj [("$vectorSearch", .obj
              [("index", .str VECTOR_INDEX_NAME),
               ("path", .str "plot_embedding"),
               ("queryVector", .arr (query_embedding.map JVal.num)),
               ("numCandidates", .num 100),
               ("limit", .num 10)])]]),
           ("fullTextPipeline", .arr
            [.obj [("$search", .obj
              [("index", .str TEXT_INDEX_NAME),
               ("text", .obj
                 [("query", .str query),
                  ("path", .arr [.str "title", .str "plot"])])])],
             .obj [("$limit", .num 10)]])])]),
       ("combination", .obj
         [("weights", .obj
           [("vectorPipeline", .num w_vector),
            ("fullTextPipeline", .num w_fulltext)])]),
       ("scoreDetails", .bool true)])],
   .obj [("$project", .obj
     [("_id", .num 0), ("title", .num 1), ("plot", .num 1),
      ("scoreDetails", .obj [("$meta", .str "scoreDetails")])])],
   .obj [("$limit", .num result_limit)]]

/-- The fixed sample query of line 132. -/
def main_query : String := "space galaxy adventure"

/-- The pipeline exactly as main builds it: the sample query, its
embedding, weights 0.7 and 0.3, final limit 5. -/
def main_pipeline (query_embedding : List Rat) : List JVal :=
  hybrid_pipeline main_query query_embedding (7 / 10) (3 / 10) 5

/-- The first stage of a pipeline. -/
def first_stage (p : List JVal) : JVal :=
  p.headD (.obj [])

/-- The last stage of a pipeline. -/
def last_stage (p : List JVal) : JVal :=
  p.getLastD (.obj [])

/-- The named subquery pipelines under the rankFusion stage's input. -/
def rank_fusion_pipelines (p : List JVal) : List (String × JVal) :=
  match ((first_stage p).lookup "$rankFusion").bind
      (fun v => (v.lookup "input").bind (fun w => w.lookup "pipelines")) with
  | some (.obj l) => l
  | _ => []

/-- The names of the subquery pipelines, in order. -/
def subquery_names (p : List JVal) : List String :=
  (rank_fusion_pipelines p).map Prod.fst

/-- The body of the single vectorSearch stage of the vector subquery. -/
def vector_subquery (p : List JVal) : Option JVal :=
  match List.lookup "vectorPipeline" (rank_fusion_pipelines p) with
  | some (.arr [s]) => s.lookup "$vectorSearch"
  | _ => none

/-- A field of the vectorSearch stage. -/
def vector_search_field (p : List JVal) (k : String) : Option JVal :=
  (vector_subquery p).bind (fun v => v.lookup k)

/-- The stages of the lexical subquery pipeline. -/
def fulltext_pipeline (p : List JVal) : List JVal :=
  match List.lookup "fullTextPipeline" (rank_fusion_pipelines p) with
  | some (.arr l) => l
  | _ => []

/-- A field of the search stage heading the lexical subquery. -/
def search_field (p : List JVal) (k : String) : Option JVal :=
  (((fulltext_pipeline p).headD (.obj [])).lookup "$search").bind
    (fun v => v.lookup k)

/-- A field of the text operator inside the search stage. -/
def search_text_field (p : List JVal) (k : String) : Option JVal :=
  (search_field p "text").bind (fun v => v.lookup k)

/-- C5: for any query text, query embedding, weight pair and output limit,
the constructed request has exactly the two named subqueries vectorPipeline
and fullTextPipeline; the vector subquery runs over the vector index on an
over-fetch pool of 100 candidates narrowed to a per-pipeline limit of 10;
the lexical subquery runs over the lexical index, matches the query text
against the fixed fields title and plot, and is capped by a limit stage of
10; and the whole pipeline ends with a limit stage at the requested output
limit. -/
theorem hybrid_pipeline_shape (query : String) (query_embedding : List Rat)
    (w_vector w_fulltext : Rat) (result_limit : Nat) :
    subquery_names (hybrid_pipeline query query_embedding w_vector w_fulltext
      result_limit) = ["vectorPipeline", "fullTextPipeline"] ∧
    vector_search_field (hybrid_pipeline query query_embedding w_vector
      w_fulltext result_limit) "index" = some (.str VECTOR_INDEX_NAME) ∧
    vector_search_field (hybrid_pipeline query query_embedding w_vector
      w_fulltext result_limit) "numCandidates" = some (.num 100) ∧
    vector_search_field (hybrid_pipeline query query_embedding w_vector
      w_fulltext result_limit) "limit" = some (.num 10) ∧
    search_field (hybrid_pipeline query query_embedding w_vector w_fulltext
      result_limit) "index" = some (.str TEXT_INDEX_NAME) ∧
    search_text_field (hybrid_pipeline query query_embedding w_vector
      w_fulltext result_limit) "query" = some (.str query) ∧
    search_text_field (hybrid_pipeline query query_embedding w_vector
      w_fulltext result_limit) "path" =
        some (.arr [.str "title", .str "plot"]) ∧
    (fulltext_pipeline (hybrid_pipeline query query_embedding w_vector
      w_fulltext result_limit)).length = 2 ∧
    last_stage (fulltext_pipeline (hybrid_pipeline query query_embedding
      w_vector w_fulltext result_limit)) = .obj [("$limit", .num 10)] ∧
    last_stage (hybrid_pipeline query query_embedding w_vector w_fulltext
      result_limit) = .obj [("$limit", .num result_limit)] := by
  refine ⟨rfl, rfl, rfl, rfl, rfl, rfl, rfl, rfl, rfl, rfl⟩

/-! ## Result rendering (src/demo.py lines 187-191)

results = list(collection.aggregate(pipeline)) is the sequence the store
returns for the request; the for loop then prints one line per document,
in the order of that sequence, displaying the fused score, the title and
the plot. Rendering is modelled as the displayed triple per document (the
4-decimal string formatting of the score is display-only and not
modelled). -/

/-- The fused score read from a result document, doc of scoreDetails,
field value. -/
def score_of (doc : PyDoc) : Rat :=
  match (List.lookup "scoreDetails" doc).bind (fun v => v.lookup "value") with
  | some (.num q) => q
  | _ => 0

/-- The title of a result document. -/
def title_of (doc : PyDoc) : String :=
  match List.lookup "title" doc with
  | some (.str s) => s
  | _ => ""

/-- What the print of line 191 displays for one document. -/
def render_result (doc : PyDoc) : Rat × String × String :=
  (score_of doc, title_of doc, plot_of doc)

/-- The for loop of lines 190-191: one displayed entry per returned
document, in the returned order. -/
def render_results : List PyDoc → List (Rat × String × String)
  | [] => []
  | d :: ds => render_result d :: render_results ds

/-- C6: the runner never re-sorts. For every sequence of documents the
store's aggregation call returns, in any order, the rendered output has
one entry per document, entry i displaying exactly document i; and since
the request caps results at 5, on any conforming return (length at most
5) the output equals the returned order truncated to that limit. -/
theorem render_results_preserves_order (docs : List PyDoc) :
    (render_results docs).length = docs.length ∧
    (∀ i, (render_results docs).getD i (render_result []) =
      render_result (docs.getD i [])) ∧
    (docs.length ≤ 5 → render_results docs = render_results (docs.take 5)) := by
  refine ⟨?_, ?_, ?_⟩
  · induction docs with
    | nil => rfl
    | cons d ds ih => rw [render_results, List.length_cons, List.length_cons, ih]
  · intro i
    induction docs generalizing i with
    | nil => rfl
    | cons d ds ih =>
        match i with
        | 0 => rfl
        | j + 1 =>
            rw [render_results, List.getD_cons_succ, List.getD_cons_succ]
            exact ih j
  · intro hle
    rw [List.take_of_length_le hle]

/-- C6 witness: three out-of-order scored documents are rendered in the
given order, with one entry per document. -/
theorem render_results_preserves_order_witness :
    (render_results
      [[("title", .str "B"), ("plot", .str "pb"),
        ("scoreDetails", .obj [("value", .num (1 / 10))])],
       [("title", .str "A"), ("plot", .str "pa"),
        ("scoreDetails", .obj [("value", .num (9 / 10))])],
       [("title", .str "C"), ("plot", .str "pc"),
        ("scoreDetails", .obj [("value", .num (5 / 10))])]]).length = 3 ∧
    render_results
      [[("title", .str "B"), ("plot", .str "pb"),
        ("scoreDetails", .obj [("value", .num (1 / 10))])],
       [("title", .str "A"), ("plot", .str "pa"),
        ("scoreDetails", .obj [("value", .num (9 / 10))])],
       [("title", .str "C"), ("plot", .str "pc"),
        ("scoreDetails", .obj [("value", .num (5 / 10))])]] =
      render_results
        ([[("title", .str "B"), ("plot", .str "pb"),
           ("scoreDetails", .obj [("value", .num (1 / 10))])],
          [("title", .str "A"), ("plot", .str "pa"),
           ("scoreDetails", .obj [("value", .num (9 / 10))])],
          [("title", .str "C"), ("plot", .str "pc"),
           ("scoreDetails", .obj [("value", .num (5 / 10))])]].take 5) := by
  obtain ⟨h1, _, h3⟩ := render_results_preserves_order
    [[("title", .str "B"), ("plot", .str "pb"),
      ("scoreDetails", .obj [("value", .num (1 / 10))])],
     [("title", .str "A"), ("plot", .str "pa"),
      ("scoreDetails", .obj [("value", .num (9 / 10))])],
     [("title", .str "C"), ("plot", .str "pc"),
      ("scoreDetails", .obj [("value", .num (5 / 10))])]]
  exact ⟨h1, h3 (by simp)⟩

/-! ## Embedding field consistency (C10) -/

/-- The keys of a document, in order. -/
def doc_keys (m : PyDoc) : List String :=
  m.map Prod.fst

/-- The field names indexed by a vector index model, read from its
definition's mappings' fields. -/
def vector_index_field_names (m : JVal) : List String :=
  match (m.lookup "definition").bind
      (fun v => (v.lookup "mappings").bind (fun w => w.lookup "fields")) with
  | some (.obj l) => l.map Prod.fst
  | _ => []

/-- C10: the embedding field name is consistent end to end. The single
field the seeder appends to each record is exactly the field list of the
vector index definition; and the path the vectorSearch subquery queries is
that same single field name, for every index name, dimensionality, query
and weight choice. -/
theorem embedding_field_consistent (embed : String → List Rat) (m : PyDoc)
    (vec_idx : String) (dims : Nat) (query : String)
    (query_embedding : List Rat) (w_vector w_fulltext : Rat)
    (result_limit : Nat) :
    doc_keys (attach_embedding embed m) =
      doc_keys m ++ vector_index_field_names (vector_index_model vec_idx dims) ∧
    vector_search_field (hybrid_pipeline query query_embedding w_vector
        w_fulltext result_limit) "path" =
      some (.str ((vector_index_field_names
        (vector_index_model vec_idx dims)).headD "")) := by
  constructor
  · rw [attach_embedding, doc_keys, doc_keys, List.map_append]
    rfl
  · rfl

/-! ## configure_clients and the driver (src/demo.py lines 14-39, 116-204)

The environment is a function from variable name to optional value; Python
truthiness makes None and the empty string both falsy in the check of line
24. The MongoClient constructor performs no network traffic; the ping of
line 32 is the first store call. The driver wraps the body in the
except/except/finally of lines 193-204. -/

/-- The exception classes the script raises or catches: ValueError (line
25), the pymongo ConfigurationError / ConnectionFailure / OperationFailure
classes, TimeoutError (line 86), and any other Exception (unexpected). -/
inductive PyError : Type where
  | valueError : PyError
  | configurationError : PyError
  | connectionFailure : PyError
  | operationFailure : PyError
  | timeoutError : PyError
  | unexpected : PyError
deriving Repr, DecidableEq

/-- Python truthiness of an os.getenv result: None and the empty string
are falsy. -/
def truthy : Option String → Bool
  | none => false
  | some s => !s.isEmpty

/-- The configured handles returned by configure_clients. -/
structure Clients where
  mongo_uri : String
  azure_key : String
  azure_deployment : String

/-- The collaborator calls configure_clients makes: the ping of line 32 is
its only network traffic (constructing the clients is local). -/
structure ConfigTrace where
  network_calls : List String

/-- configure_clients: read the two secrets, raise ValueError before any
network call if either is falsy (lines 24-27), otherwise construct the
clients and ping the store (line 32), which can fail with
ConnectionFailure. -/
def configure_clients (env : String → Option String) (ping_ok : Bool) :
    Except PyError Clients × ConfigTrace :=
  let mongo_uri := env "MONGODB_CONNECTION_URI"
  let azure_key := env "AZURE_OPENAI_API_KEY"
  if !truthy mongo_uri || !truthy azure_key then
    (.error .valueError, ⟨[]⟩)
  else if ping_ok then
    (.ok ⟨mongo_uri.getD "", azure_key.getD "", "text-embedding-3-small"⟩,
      ⟨["ping"]⟩)
  else
    (.error .connectionFailure, ⟨["ping"]⟩)

/-- Whether an exception is caught by the named clause of line 193
(ValueError, ConfigurationError, ConnectionFailure, OperationFailure,
TimeoutError); anything else falls to the bare except of line 195. -/
def caught_by_named_clause : PyError → Bool
  | .valueError => true
  | .configurationError => true
  | .connectionFailure => true
  | .operationFailure => true
  | .timeoutError => true
  | .unexpected => false

/-- The top-level failure boundary of lines 193-196: a body that raised e
leads to a printed diagnostic line, never to a propagated exception; the
named classes print the FATAL ERROR line, anything else the unexpected
line. -/
def top_boundary : Except PyError Unit → Option String
  | .ok _ => none
  | .error e =>
      if caught_by_named_clause e then some "FATAL ERROR"
      else some "An unexpected error occurred"

/-- The world the driver runs against: environment, store liveness, the
embedding client, initial database and search-index state, which index
builds become ready in time, what the aggregation call returns or raises,
and the answer typed at the teardown prompt. -/
structure MainWorld where
  env : String → Option String
  ping_ok : Bool
  embed : String → List Rat
  db0 : Database
  indexes0 : List JVal
  poll_ok : String → Bool
  agg : Except PyError (List PyDoc)
  teardown_response : String

/-- Whether the mongo_client variable was assigned (line 120 completed),
which the finally block of lines 197-204 tests. -/
def main_client_obtained (w : MainWorld) : Bool :=
  match (configure_clients w.env w.ping_ok).1 with
  | .ok _ => true
  | .error _ => false

/-- The outcome of the try body of lines 119-191: configuration, seeding,
index ensuring (a never-ready build raises TimeoutError out of
wait_for_index), then the aggregation call. -/
def main_body (w : MainWorld) : Except PyError Unit :=
  match (configure_clients w.env w.ping_ok).1 with
  | .error e => .error e
  | .ok _ =>
      match (create_indexes_if_needed w.poll_ok w.indexes0 TEXT_INDEX_NAME
          VECTOR_INDEX_NAME EMBEDDING_DIMENSIONS).timedOut with
      | some _ => .error .timeoutError
      | none =>
          match w.agg with
          | .error e => .error e
          | .ok _ => .ok ()

/-- The texts sent to the embedding collaborator: none if configuration
failed; the seeded plots; and the sample query text (line 134) once the
indexes are ready. -/
def main_embed_calls (w : MainWorld) : List String :=
  match (configure_clients w.env w.ping_ok).1 with
  | .error _ => []
  | .ok _ =>
      match (create_indexes_if_needed w.poll_ok w.indexes0 TEXT_INDEX_NAME
          VECTOR_INDEX_NAME EMBEDDING_DIMENSIONS).timedOut with
      | some _ => (setup_database w.db0 COLLECTION_NAME w.embed).2.embed_calls
      | none =>
          (setup_database w.db0 COLLECTION_NAME w.embed).2.embed_calls ++
            [main_query]

/-- The invocations made on the store, phase by phase: none before the
configuration check passes; the ping; the seeding calls; the index listing
and creations; the aggregation call once the indexes are ready. -/
def main_store_calls (w : MainWorld) : List String :=
  (configure_clients w.env w.ping_ok).2.network_calls ++
    match (configure_clients w.env w.ping_ok).1 with
    | .error _ => []
    | .ok _ =>
        (["list_collection_names", "count_documents"] ++
          (if (setup_database w.db0 COLLECTION_NAME w.embed).2.dropped then
            ["drop", "insert_many"] else [])) ++
        (["list_search_indexes"] ++
          (create_indexes_if_needed w.poll_ok w.indexes0 TEXT_INDEX_NAME
            VECTOR_INDEX_NAME EMBEDDING_DIMENSIONS).creates.map
              (fun _ => "create_search_index")) ++
        (match (create_indexes_if_needed w.poll_ok w.indexes0 TEXT_INDEX_NAME
            VECTOR_INDEX_NAME EMBEDDING_DIMENSIONS).timedOut with
         | some _ => []
         | none => ["aggregate"])

/-- What the results loop displays: only the successful path renders. -/
def main_rendered (w : MainWorld) : List (Rat × String × String) :=
  match main_body w, w.agg with
  | .ok _, .ok docs => render_results docs
  | _, _ => []

/-- The database as the body leaves it (seeding ran iff the client was
obtained). -/
def main_db_at_exit (w : MainWorld) : Database :=
  if main_client_obtained w then (setup_database w.db0 COLLECTION_NAME w.embed).1
  else w.db0

/-- Python str.lower() as used on the prompt response of line 199:
lowercase every character. -/
def py_lower (s : String) : String :=
  ⟨s.data.map Char.toLower⟩

/-- The observable outcome of one driver run. -/
structure MainResult where
  client_obtained : Bool
  body : Except PyError Unit
  embed_calls : List String
  store_calls : List String
  rendered : List (Rat × String × String)
  diagnostic : Option String
  prompted : Bool
  dropped : Bool
  closed : Bool
  final_db : Database

/-- The boundary plus the finally block of lines 193-204: whatever the
body did, the named or bare except prints its diagnostic, and then, iff
the client was obtained, the prompt is offered, the collection is dropped
exactly when the lowercased response is yes, and the connection is closed
unconditionally. -/
def main_finally (response : String) (client_obtained : Bool)
    (body : Except PyError Unit) (embeds store : List String)
    (rendered : List (Rat × String × String)) (db : Database) : MainResult :=
  { client_obtained := client_obtained
    body := body
    embed_calls := embeds
    store_calls := store
    rendered := rendered
    diagnostic := top_boundary body
    prompted := client_obtained
    dropped := client_obtained && (py_lower response == "yes")
    closed := client_obtained
    final_db :=
      if client_obtained && (py_lower response == "yes") then
        drop_collection db COLLECTION_NAME
      else db }

/-- main: run the body against the world and pass through the boundary and
the finally block. -/
def main_run (w : MainWorld) : MainResult :=
  main_finally w.teardown_response (main_client_obtained w) (main_body w)
    (main_embed_calls w) (main_store_calls w) (main_rendered w)
    (main_db_at_exit w)

/-- C7: a missing (or empty) connection-URI or API-key secret makes
configuration fail immediately with the ValueError, before any network
call: configure_clients returns the error with an empty call trace, and a
whole driver run against such an environment records zero store
invocations and zero embedding invocations. -/
theorem missing_secret_fails_before_any_network_call
    (env : String → Option String) (ping_ok : Bool) (w : MainWorld) :
    (truthy (env "MONGODB_CONNECTION_URI") = false ∨
      truthy (env "AZURE_OPENAI_API_KEY") = false →
      configure_clients env ping_ok = (.error .valueError, ⟨[]⟩)) ∧
    (truthy (w.env "MONGODB_CONNECTION_URI") = false ∨
      truthy (w.env "AZURE_OPENAI_API_KEY") = false →
      (main_run w).body = .error .valueError ∧
      (main_run w).store_calls = [] ∧ (main_run w).embed_calls = []) := by
  have key : ∀ (env2 : String → Option String) (p : Bool),
      truthy (env2 "MONGODB_CONNECTION_URI") = false ∨
      truthy (env2 "AZURE_OPENAI_API_KEY") = false →
      configure_clients env2 p = (.error .valueError, ⟨[]⟩) := by
    intro env2 p h
    rw [configure_clients]
    have hcond : (!truthy (env2 "MONGODB_CONNECTION_URI") ||
        !truthy (env2 "AZURE_OPENAI_API_KEY")) = true := by
      rcases h with h | h <;> rw [h] <;> simp
    rw [hcond, if_pos rfl]
  refine ⟨key env ping_ok, ?_⟩
  intro h
  have hcfg := key w.env w.ping_ok h
  refine ⟨?_, ?_, ?_⟩
  · show (main_body w) = .error .valueError
    rw [main_body, hcfg]
  · show (main_store_calls w) = []
    rw [main_store_calls, hcfg]
    rfl
  · show (main_embed_calls w) = []
    rw [main_embed_calls, hcfg]

/-- C7 witness: with an empty environment, configuration fails with the
ValueError and a driver run makes zero store and embedding calls. -/
theorem missing_secret_fails_before_any_network_call_witness :
    configure_clients (fun _ => none) true = (.error .valueError, ⟨[]⟩) ∧
    (main_run ⟨fun _ => none, true, fun _ => [1], [], [], fun _ => true,
      .ok [], "no"⟩).body = .error .valueError ∧
    (main_run ⟨fun _ => none, true, fun _ => [1], [], [], fun _ => true,
      .ok [], "no"⟩).store_calls = [] ∧
    (main_run ⟨fun _ => none, true, fun _ => [1], [], [], fun _ => true,
      .ok [], "no"⟩).embed_calls = [] := by
  obtain ⟨h1, h2⟩ := missing_secret_fails_before_any_network_call
    (fun _ => none) true
    ⟨fun _ => none, true, fun _ => [1], [], [], fun _ => true, .ok [], "no"⟩
  exact ⟨h1 (Or.inl rfl), h2 (Or.inl rfl)⟩

/-- C8: every error of the taxonomy is caught at the single top-level
boundary and printed, never propagated: (i) every raised exception class
produces a printed diagnostic; (ii) the five named classes print the FATAL
ERROR line, (iii) the catch-all prints the unexpected line; (iv) whatever
the body of a driver run raises, the run's diagnostic is exactly what the
boundary prints for it, and the run is a value, not a propagating
exception; (v) the only locally retried errors are transient poll
failures: an OperationFailure inside wait_for_index's budget is swallowed
and the loop retries 5 time-units later. -/
theorem taxonomy_errors_caught_at_boundary :
    (∀ e : PyError, ∃ d, top_boundary (.error e) = some d) ∧
    (∀ e : PyError, caught_by_named_clause e = true →
      top_boundary (.error e) = some "FATAL ERROR") ∧
    top_boundary (.error .unexpected) = some "An unexpected error occurred" ∧
    (∀ (w : MainWorld) (e : PyError), (main_run w).body = .error e →
      (main_run w).diagnostic = top_boundary (.error e)) ∧
    (∀ (src : Nat → PollResult) (timeout elapsed : Nat),
      elapsed < timeout → src elapsed = .opFailure →
      wait_for_index_loop src timeout elapsed =
        wait_for_index_loop src timeout (elapsed + 5)) := by
  refine ⟨?_, ?_, rfl, ?_, ?_⟩
  · intro e
    cases e <;> exact ⟨_, rfl⟩
  · intro e he
    rw [top_boundary, he, if_pos rfl]
  · intro w e hbody
    have hb : main_body w = .error e := hbody
    show top_boundary (main_body w) = top_boundary (.error e)
    rw [hb]
  · intro src timeout elapsed hlt hop
    exact wait_for_index_loop_opFailure src timeout elapsed hlt hop

/-- C8 witness: a run whose aggregation call raises OperationFailure (the
unsupported-rankFusion case) ends with the FATAL ERROR diagnostic, and a
transiently failing poll at elapsed 0 of budget 300 is retried at 5. -/
theorem taxonomy_errors_caught_at_boundary_witness :
    (main_run ⟨fun _ => some "x", true, fun _ => [1], [], [], fun _ => true,
      .error .operationFailure, "no"⟩).diagnostic =
      top_boundary (.error .operationFailure) ∧
    top_boundary (.error .operationFailure) = some "FATAL ERROR" ∧
    wait_for_index_loop (fun _ => .opFailure) 300 0 =
      wait_for_index_loop (fun _ => .opFailure) 300 5 := by
  obtain ⟨_, h2, _, h4, h5⟩ := taxonomy_errors_caught_at_boundary
  refine ⟨h4 ⟨fun _ => some "x", true, fun _ => [1], [], [], fun _ => true,
    .error .operationFailure, "no"⟩ .operationFailure rfl, h2 _ rfl, ?_⟩
  have := h5 (fun _ => .opFailure) 300 0 (by omega) rfl
  simpa using this

/-- C9: on every exit path, normal or error, if the store handle was
obtained the driver offers the teardown prompt, drops the demo collection
exactly when the lowercased response equals yes (anything else skips the
drop), and closes the connection unconditionally; if no handle was
obtained, neither prompt, drop nor close happens. -/
theorem teardown_on_every_exit_path (w : MainWorld) :
    ((main_run w).client_obtained = true →
      (main_run w).prompted = true ∧ (main_run w).closed = true ∧
      ((main_run w).dropped = true ↔ py_lower w.teardown_response = "yes") ∧
      (main_run w).final_db =
        (if py_lower w.teardown_response = "yes" then
          drop_collection (main_db_at_exit w) COLLECTION_NAME
        else main_db_at_exit w)) ∧
    ((main_run w).client_obtained = false →
      (main_run w).prompted = false ∧ (main_run w).dropped = false ∧
      (main_run w).closed = false) := by
  constructor
  · intro hc
    have hc' : main_client_obtained w = true := hc
    refine ⟨hc', hc', ?_, ?_⟩
    · show (main_client_obtained w &&
        (py_lower w.teardown_response == "yes")) = true ↔
        py_lower w.teardown_response = "yes"
      rw [hc']
      simp
    · show (if main_client_obtained w &&
          (py_lower w.teardown_response == "yes") then
            drop_collection (main_db_at_exit w) COLLECTION_NAME
          else main_db_at_exit w) = _
      rw [hc']
      by_cases hy : py_lower w.teardown_response = "yes"
      · rw [if_pos hy]
        simp [hy]
      · rw [if_neg hy]
        have : (py_lower w.teardown_response == "yes") = false :=
          beq_eq_false_iff_ne.mpr hy
        simp [this]
  · intro hc
    have hc' : main_client_obtained w = false := hc
    refine ⟨hc', ?_, hc'⟩
    show (main_client_obtained w &&
      (py_lower w.teardown_response == "yes")) = false
    rw [hc']
    simp

/-- C9 witness: a run with both secrets present, a live store and the
response YES prompts, drops and closes; the same run answered nope
prompts, does not drop, and still closes. -/
theorem teardown_on_every_exit_path_witness :
    ((main_run ⟨fun _ => some "x", true, fun _ => [1], [], [],
        fun _ => true, .ok [], "YES"⟩).prompted = true ∧
      (main_run ⟨fun _ => some "x", true, fun _ => [1], [], [],
        fun _ => true, .ok [], "YES"⟩).closed = true ∧
      ((main_run ⟨fun _ => some "x", true, fun _ => [1], [], [],
        fun _ => true, .ok [], "YES"⟩).dropped = true ↔
        (py_lower "YES" = "yes"))) ∧
    (main_run ⟨fun _ => some "x", true, fun _ => [1], [], [],
      fun _ => true, .ok [], "nope"⟩).dropped = false := by
  constructor
  · obtain ⟨h1, _⟩ := teardown_on_every_exit_path
      ⟨fun _ => some "x", true, fun _ => [1], [], [], fun _ => true,
        .ok [], "YES"⟩
    obtain ⟨p, c, d, _⟩ := h1 rfl
    exact ⟨p, c, d⟩
  · obtain ⟨h1, _⟩ := teardown_on_every_exit_path
      ⟨fun _ => some "x", true, fun _ => [1], [], [], fun _ => true,
        .ok [], "nope"⟩
    obtain ⟨_, _, d, _⟩ := h1 rfl
    rw [Bool.eq_false_iff]
    intro hd
    have := d.mp hd
    revert this
    decide

end MdbRankFusion
